import Mathlib

/-!
# Verification of the doluMu schedule-cache and service-state core

Shallow embedding of the schedule resolver (`src/api/services/schedule_service.py`),
status resolver (`src/api/services/status_service.py`), service-window calculator and
pooled-forecast branch (`src/api/routers/forecast.py`), pooled schedule endpoint
(`src/api/routers/schedule.py`) and the pool constants (`src/api/constants.py`).

Python strings are modelled on `List Char` so that every operation reduces in the
kernel; Python `float` values are modelled as rationals (only order/clamping facts
are proved, which do not depend on rounding of ties); Python exceptions are
modelled with `Option`/`Except`.
-/

namespace DoluMu

/-! ## Python string primitives

Structural models of the `str` methods the source uses: `strip`, `split(sep)`,
`split()`, `upper`, `in` (substring test) and `int(...)` conversion. -/

/-- Python whitespace test (`str.strip` / `str.split` with no argument). -/
def pyIsSpace (c : Char) : Bool :=
  c == ' ' || c == '\t' || c == '\n' || c == '\r' || c == '\x0b' || c == '\x0c'

/-- Remove leading whitespace. -/
def dropSpaces : List Char → List Char
  | [] => []
  | c :: cs => if pyIsSpace c then dropSpaces cs else c :: cs

/-- Python `str.strip()` on the character list. -/
def stripChars (s : List Char) : List Char :=
  ((dropSpaces s.reverse).reverse |> dropSpaces)

/-- Python `str.strip()`. -/
def pyStrip (s : String) : String := ⟨stripChars s.data⟩

/-- Python `s.split(sep)` for a one-character separator: splits at every
occurrence and keeps empty fields (`"".split(sep) == [""]`). -/
def splitOnChar (sep : Char) : List Char → List (List Char)
  | [] => [[]]
  | c :: cs =>
    let r := splitOnChar sep cs
    if c == sep then [] :: r
    else
      match r with
      | h :: t => (c :: h) :: t
      | [] => [[c]]

/-- Python `s.split(sep)` lifted to `String`. -/
def pySplit (s : String) (sep : Char) : List String :=
  (splitOnChar sep s.data).map (fun cs => ⟨cs⟩)

/-- Python `s.split()` (no argument): split on whitespace runs, dropping
empty fields. -/
def pySplitWs (s : String) : List String :=
  ((splitOnChar ' ' (s.data.map (fun c => if pyIsSpace c then ' ' else c))).filter
    (fun cs => !cs.isEmpty)).map (fun cs => ⟨cs⟩)

/-- Python `str.upper()` restricted to ASCII (line codes in this system are
ASCII alphanumerics). -/
def pyUpperChar (c : Char) : Char :=
  if 'a' ≤ c && c ≤ 'z' then Char.ofNat (c.toNat - 32) else c

/-- Python `str.upper()`. -/
def pyUpper (s : String) : String := ⟨s.data.map pyUpperChar⟩

/-- Does `hay` start with `needle`? -/
def startsWithChars : List Char → List Char → Bool
  | [], _ => true
  | _ :: _, [] => false
  | n :: ns, h :: hs => n == h && startsWithChars ns hs

/-- Python `needle in hay` for strings. -/
def containsChars (needle : List Char) : List Char → Bool
  | [] => needle.isEmpty
  | h :: hs => startsWithChars needle (h :: hs) || containsChars needle hs

/-- Python `needle in hay` lifted to `String`. -/
def pyContains (hay needle : String) : Bool := containsChars needle.data hay.data

/-- Digits-only conversion used by `pyInt`. -/
def digitsToNat (cs : List Char) : Option Nat :=
  if cs.isEmpty then none
  else if cs.all (fun c => '0' ≤ c && c ≤ '9') then
    some (cs.foldl (fun n c => n * 10 + (c.toNat - 48)) 0)
  else none

/-- Python `int(s)`: strips whitespace, optional sign, decimal digits;
raises `ValueError` (here: `none`) otherwise. -/
def pyInt (s : String) : Option Int :=
  match stripChars s.data with
  | '-' :: rest => (digitsToNat rest).map (fun n => -(n : Int))
  | '+' :: rest => (digitsToNat rest).map (fun n => (n : Int))
  | t => (digitsToNat t).map (fun n => (n : Int))

/-! ## Times

A parsed `datetime.time` carries (hour, minute); `datetime.time` ordering is
lexicographic on those fields. -/

/-- The manual time parser shared by `status_service._parse_time` and
`forecast._parse_time`: `parts = s.strip().split(':')`; with at least two
parts, `time(int(parts[0]), int(parts[1]))`, which raises (here: `none`)
outside 0..23 / 0..59; any failure yields `None`. -/
def parse_time (s : String) : Option (Nat × Nat) :=
  let parts := pySplit (pyStrip s) ':'
  if parts.length ≥ 2 then
    match parts.get? 0, parts.get? 1 with
    | some p0, some p1 =>
      match pyInt p0, pyInt p1 with
      | some h, some m =>
        if 0 ≤ h ∧ h ≤ 23 ∧ 0 ≤ m ∧ m ≤ 59 then some (h.toNat, m.toNat) else none
      | _, _ => none
    | _, _ => none
  else none

/-- Ordering of `datetime.time` (`<=`). -/
def timeRel (a b : Nat × Nat) : Prop := a.1 < b.1 ∨ (a.1 = b.1 ∧ a.2 ≤ b.2)

instance : DecidableRel timeRel := fun a b =>
  inferInstanceAs (Decidable (a.1 < b.1 ∨ (a.1 = b.1 ∧ a.2 ≤ b.2)))

/-- Strict ordering of `datetime.time` (`<`). -/
def timeLtB (a b : Nat × Nat) : Bool :=
  decide (a.1 < b.1) || (decide (a.1 = b.1) && decide (a.2 < b.2))

/-- Ordering of `datetime.time` (`<=`) as a `Bool`. -/
def timeLeB (a b : Nat × Nat) : Bool := decide (timeRel a b)

/-- Formatting `time.strftime("%H:%M")`: zero-padded `HH:MM`. -/
def formatTime (t : Nat × Nat) : String :=
  (if t.1 < 10 then "0" ++ toString t.1 else toString t.1) ++ ":" ++
    (if t.2 < 10 then "0" ++ toString t.2 else toString t.2)

/-! ## Python string ordering (used by `sorted` on `HH:MM` strings) -/

/-- Code-point lexicographic `<=` on character lists: Python string order. -/
def charsLe : List Char → List Char → Bool
  | [], _ => true
  | _ :: _, [] => false
  | a :: as, b :: bs =>
    if a.toNat < b.toNat then true
    else if b.toNat < a.toNat then false
    else charsLe as bs

/-- Python string `<=`, as a relation for sorting. -/
def strRel (a b : String) : Prop := charsLe a.data b.data = true

instance : DecidableRel strRel := fun a b =>
  inferInstanceAs (Decidable (charsLe a.data b.data = true))

/-! ## Constants (`src/api/constants.py`) -/

def METROBUS_CODE : String := "METROBUS"

/-- Metrobus variants pooled into one virtual line. -/
def METROBUS_POOL : List String := ["34", "34A", "34AS", "34BZ", "34C", "34G", "34Z"]

/-- Fixed per-vehicle capacity for metrobus. -/
def METROBUS_CAPACITY : Nat := 193

/-- Non-zero trip floor when the schedule is unavailable. -/
def METROBUS_MIN_TRIPS_FALLBACK : Nat := 6

/-! ## Canonical schedule payload (`schedule_service.py`, `schedule.py`)

The payload dict `{"G": [...], "D": [...], "meta": ..., "has_service_today": ...,
"data_status": ...}`. The sentinel additionally carries `day_type` and
`valid_for`; the pooled payload omits them, so both are `Option` fields. -/

structure SchedulePayload where
  g : List String
  d : List String
  meta : List (String × String × String)
  hasServiceToday : Bool
  dataStatus : String
  dayType : Option String := none
  validFor : Option Nat := none
  deriving Repr, DecidableEq

/-- Lookup `schedule.get(direction, [])`: the payload holds exactly the keys
`"G"` and `"D"` for direction lists. -/
def payloadGet (p : SchedulePayload) (key : String) : List String :=
  if key == "G" then p.g else if key == "D" then p.d else []

/-! ## Persistent store rows (`bus_schedule_cache` table, spec section 6) -/

/-- One row of `bus_schedule_cache`; `fetched_at` is not modelled (nothing the
claims touch reads it). -/
structure StoredRecord where
  lineCode : String
  validFor : Nat
  dayType : String
  payload : SchedulePayload
  sourceStatus : String
  errorMessage : Option String := none
  deriving Repr, DecidableEq

/-- Last-write-wins upsert keyed by `(line_code, valid_for, day_type)`
(spec section 3 invariant; `store_schedule` of the cache module). -/
def upsertRecord (store : List StoredRecord) (r : StoredRecord) : List StoredRecord :=
  r :: store.filter (fun s =>
    !(s.lineCode == r.lineCode && s.validFor == r.validFor && s.dayType == r.dayType))

/-- Modelled from the spec: `bus_schedule_cache_service.day_type_for_date` is in
the `bus_schedule_cache` module, absent from src/. Spec section 4.2 step 1:
Mon-Fri map to the weekday type `"I"`, Saturday to `"C"`, Sunday to `"P"`
(letter codes from `IETTScheduleService._get_day_type`). Dates are day indices
with day 0 a Monday. -/
def dayTypeForDate (d : Nat) : String :=
  if d % 7 == 5 then "C" else if d % 7 == 6 then "P" else "I"

/-- Modelled from the spec: the record-selection predicate of
`bus_schedule_cache_service.get_cached_schedule` (module absent from src/) —
a `SUCCESS` record for the line whose `valid_for` lies at most
`max_stale_days` before the requested date. -/
def staleCandidate (lineCode : String) (validFor maxStaleDays : Nat)
    (r : StoredRecord) : Bool :=
  r.lineCode == lineCode && r.sourceStatus == "SUCCESS" &&
    r.validFor ≤ validFor && validFor - r.validFor ≤ maxStaleDays

/-- Modelled from the spec: `bus_schedule_cache_service.get_cached_schedule` is
in the `bus_schedule_cache` module, absent from src/. Spec section 4.2 step 3:
serve a persisted `SUCCESS` record for the requested date, or a stale one whose
`valid_for` lies within `max_stale_days` before the requested date (most recent
first); the second component is the `is_stale` flag. -/
def getCachedSchedule (store : List StoredRecord) (lineCode : String)
    (validFor maxStaleDays : Nat) : Option (SchedulePayload × Bool) :=
  let candidates := store.filter (staleCandidate lineCode validFor maxStaleDays)
  match candidates.foldl (fun best r =>
      match best with
      | none => some r
      | some b => if b.validFor < r.validFor then some r else some b) none with
  | some r => some (r.payload, decide (r.validFor ≠ validFor))
  | none => none

/-! ## Schedule resolver (`IETTScheduleService.get_schedule`) -/

/-- The memory cache key `f"{line_code}_{target_date.isoformat()}"`
(dates are day indices here, so the date renders as a number). -/
def scheduleCacheKey (lineCode : String) (targetDate : Nat) : String :=
  lineCode ++ "_" ++ toString targetDate

/-- The sentinel payload built in the upstream-failure branch of
`get_schedule` (schedule_service.py lines 285-293). -/
def failedPayload (dayType : String) (targetDate : Nat) : SchedulePayload :=
  { g := []
    d := []
    meta := []
    hasServiceToday := true
    dataStatus := "FETCH_FAILED"
    dayType := some dayType
    validFor := some targetDate }

/-- Outcome of one `get_schedule` call, instrumented with the number of
upstream calls issued (for the cache/coalescing claims). -/
structure ResolveResult where
  payload : SchedulePayload
  memCacheAfter : List (String × SchedulePayload)
  storeAfter : List StoredRecord
  upstreamCalls : Nat
  deriving Repr, DecidableEq

/-- Embedding of `IETTScheduleService.get_schedule` (schedule_service.py lines 217-312).

The memory cache is an association list (newest entry first, as a TTL-cache
write replaces the key; TTL expiry itself is not modelled — an expired entry is
simply an absent one). `upstream` stands for
`fetch_schedule_from_api` + `build_filtered_payload`: `.ok` is a successfully
built payload, `.error` any exception (timeout, transport, parse). -/
def getSchedule (memCache : List (String × SchedulePayload)) (store : List StoredRecord)
    (upstream : Except String SchedulePayload) (lineCode : String) (targetDate : Nat) :
    ResolveResult :=
  let cacheKey := scheduleCacheKey lineCode targetDate
  match memCache.find? (fun e => e.1 == cacheKey) with
  | some e => ⟨e.2, memCache, store, 0⟩
  | none =>
    match getCachedSchedule store lineCode targetDate 2 with
    | some (p, _isStale) => ⟨p, (cacheKey, p) :: memCache, store, 0⟩
    | none =>
      let dayType := dayTypeForDate targetDate
      match upstream with
      | .ok payload =>
        ⟨payload, (cacheKey, payload) :: memCache,
          upsertRecord store
            ⟨lineCode, targetDate, dayType, payload, "SUCCESS", none⟩, 1⟩
      | .error msg =>
        let fp := failedPayload dayType targetDate
        ⟨fp, (cacheKey, fp) :: memCache,
          upsertRecord store
            ⟨lineCode, targetDate, dayType, fp, "FAILED", some (msg.take 1000)⟩, 1⟩

/-! ## Service-window calculator (`forecast.py`) -/

/-- The service-hours dict built by `_get_service_hours`; its producer always
sets all four keys, so it is a plain structure. -/
structure ServiceHours where
  firstHour : Option Nat
  lastHour : Option Nat
  wrapsMidnight : Bool
  hasService : Bool
  deriving Repr, DecidableEq

/-- Embedding of `_is_hour_in_service` (forecast.py lines 176-206). -/
def isHourInService (hour : Nat) (serviceHours : Option ServiceHours) : Bool :=
  match serviceHours with
  | none => true
  | some s =>
    if !s.hasService then false
    else
      match s.firstHour, s.lastHour with
      | some firstHour, some lastHour =>
        if !s.wrapsMidnight then decide (firstHour ≤ hour ∧ hour ≤ lastHour)
        else decide (hour ≥ firstHour ∨ hour ≤ lastHour)
      | _, _ => false

/-- A topology line as `metro_service.get_line` returns it: the
`first_time`/`last_time` attributes (`metro_line.get(...) or ''` turns a
missing value into the empty string before parsing). -/
structure MetroLine where
  firstTime : Option String
  lastTime : Option String
  deriving Repr, DecidableEq

/-- Test `line_code and line_code[0] in ('M', 'F', 'T')` (forecast.py line 93). -/
def isRailCode (s : String) : Bool :=
  match s.data with
  | [] => false
  | c :: _ => c == 'M' || c == 'F' || c == 'T'

/-- The `directions_to_check` list of `_get_service_hours` (line 113):
`[direction] if direction else ['G', 'D']` — `None` and the empty string are
both falsy. -/
def directionsToCheck (direction : Option String) : List String :=
  match direction with
  | some d => if d == "" then ["G", "D"] else [d]
  | none => ["G", "D"]

/-- The parsed departure times `_get_service_hours` collects from the
requested direction(s) (lines 112-120). -/
def collectWindowTimes (p : SchedulePayload) (direction : Option String) :
    List (Nat × Nat) :=
  (directionsToCheck direction).foldl
    (fun acc dirCode => acc ++ (payloadGet p dirCode).filterMap parse_time) []

/-- The schedule-based tail of `_get_service_hours` (lines 107-169), after the
Marmaray and rail-topology special cases. -/
def scheduleWindow (schedule : SchedulePayload) (direction : Option String) :
    Option ServiceHours :=
  let allTimes := collectWindowTimes schedule direction
  if allTimes.isEmpty then
    if schedule.dataStatus == "FETCH_FAILED" then none
    else
      let directionCase : Option ServiceHours :=
        match direction with
        | some d =>
          if d == "G" || d == "D" then
            let opposite := if d == "G" then "D" else "G"
            let oppositeHasTimes := !(payloadGet schedule opposite).isEmpty
            if oppositeHasTimes || schedule.hasServiceToday then
              some ⟨none, none, false, false⟩
            else none
          else none
        | none => none
      match directionCase with
      | some w => some w
      | none =>
        if schedule.dataStatus == "NO_SERVICE_DAY" ||
            (schedule.dataStatus == "NO_DATA" && schedule.hasServiceToday == false) then
          some ⟨none, none, false, false⟩
        else none
  else
    match List.insertionSort timeRel allTimes with
    | [] => none
    | f :: rest =>
      some ⟨some f.1, some (((f :: rest).getLast (List.cons_ne_nil f rest)).1),
        false, true⟩

/-- Embedding of `_get_service_hours` (forecast.py lines 71-173). `metroLookup` stands for
`metro_service.get_line` (only consulted for rail-prefixed codes);
`scheduleResult` is the `get_schedule` call, whose persistent-store errors
propagate and are swallowed by the outer `except` into `None`. -/
def getServiceHours (metroLookup : String → Option MetroLine)
    (scheduleResult : Except String SchedulePayload) (lineCode : String)
    (direction : Option String) : Option ServiceHours :=
  if lineCode == "MARMARAY" then some ⟨some 6, some 0, true, true⟩
  else
    let railAttempt : Option ServiceHours :=
      if isRailCode lineCode then
        match metroLookup lineCode with
        | some ml =>
          match parse_time (ml.firstTime.getD ""), parse_time (ml.lastTime.getD "") with
          | some firstT, some lastT =>
            some ⟨some firstT.1, some lastT.1, timeLtB lastT firstT, true⟩
          | _, _ => none
        | none => none
      else none
    match railAttempt with
    | some w => some w
    | none =>
      match scheduleResult with
      | .error _ => none
      | .ok schedule => scheduleWindow schedule direction

/-! ## Status resolver (`status_service.py`) -/

/-- A wall-clock instant: calendar day index plus time of day, standing for
`datetime.now()`. -/
structure Moment where
  day : Int
  hour : Nat
  minute : Nat
  deriving Repr, DecidableEq

/-- An instant in minutes, for `datetime` comparison and arithmetic. -/
def momentMinutes (m : Moment) : Int := m.day * 1440 + m.hour * 60 + m.minute

/-- Embedding of `IETTStatusService._parse_update_time` (lines 67-103): extract `HH:MM` from
a `"Kayit Saati: HH:MM"` field, date it today, and move it to yesterday when
the current hour is before 4 and the parsed hour at least 4. Results are
minutes on the `Moment` timeline. -/
def parseUpdateTime (timeStr : String) (now : Moment) : Option Int :=
  if pyContains timeStr "Kayit Saati:" || pyContains timeStr "Kayıt Saati:" then
    let parts := pySplit timeStr ':'
    let timePart := parts.drop (parts.length - 2)
    if timePart.length == 2 then
      match timePart.get? 0, timePart.get? 1 with
      | some p0, some p1 =>
        match (pySplitWs (pyStrip p0)).getLast? with
        | some hourTok =>
          match pyInt hourTok, pyInt (pyStrip p1) with
          | some h, some m =>
            if 0 ≤ h ∧ h ≤ 23 ∧ 0 ≤ m ∧ m ≤ 59 then
              let updateTime : Int := now.day * 1440 + h * 60 + m
              if now.hour < 4 ∧ h ≥ 4 then some (updateTime - 1440)
              else some updateTime
            else none
          | _, _ => none
        | none => none
      | _, _ => none
    else none
  else none

/-- One `Table` element of the alerts response. An `Option` field is `none`
when the element is missing; a present element whose text is `None` behaves
exactly like the empty string in the source, so only the text is kept. -/
structure AlertRow where
  hatkodu : Option String
  mesaj : Option String
  guncellemeSaati : Option String
  deriving Repr, DecidableEq

/-- The per-row body of the `_fetch_alerts` loop (lines 150-182): `some text`
when the row is appended to the alert list, `none` when it is skipped. -/
def alertMatch (lineCode : String) (now : Moment) (row : AlertRow) : Option String :=
  match row.hatkodu, row.mesaj with
  | some hk, some ms =>
    let hatCode := pyStrip hk
    let mesajText := pyStrip ms
    if pyUpper hatCode == pyUpper lineCode && mesajText != "" then
      match row.guncellemeSaati with
      | some ts =>
        if ts != "" then
          match parseUpdateTime ts now with
          | some updateTime =>
            if updateTime < momentMinutes now - 1440 then none else some mesajText
          | none => some mesajText
        else some mesajText
      | none => some mesajText
    else none
  | _, _ => none

/-- Embedding of `IETTStatusService._fetch_alerts` (lines 105-199), applied to parsed
`Table` rows: all messages whose row matches the line code case-insensitively,
is non-empty, and is not older than 24 hours. -/
def fetchAlerts (lineCode : String) (rows : List AlertRow) (now : Moment) :
    List String :=
  rows.filterMap (alertMatch lineCode now)

/-- The alert messages `get_line_status` sees: a transport/parse failure of the
alerts fetch degrades to no alerts. -/
def alertsOf (fetchResult : Except String (List AlertRow)) (lineCode : String)
    (now : Moment) : List String :=
  match fetchResult with
  | .ok rows => fetchAlerts lineCode rows now
  | .error _ => []

/-- The parsed departure times `_check_operation_hours` collects from both
directions, `'G'` then `'D'` (lines 235-241). -/
def operationTimes (schedule : SchedulePayload) : List (Nat × Nat) :=
  (["G", "D"]).foldl
    (fun acc dirCode => acc ++ (payloadGet schedule dirCode).filterMap parse_time) []

/-- Embedding of `IETTStatusService._check_operation_hours` (lines 221-275): pair of
`in_operation` and `next_service_time`. `scheduleResult` is the `get_schedule`
call; any exception (`.error`) lands in the `except` branch, assuming active. -/
def checkOperationHours (scheduleResult : Except String SchedulePayload)
    (now : Moment) : Bool × Option String :=
  match scheduleResult with
  | .error _ => (true, none)
  | .ok schedule =>
    match List.insertionSort timeRel (operationTimes schedule) with
    | [] => (true, none)
    | f :: rest =>
      let lastService := (f :: rest).getLast (List.cons_ne_nil f rest)
      let nowTime := (now.hour, now.minute)
      if timeLeB f nowTime && timeLeB nowTime lastService then (true, none)
      else (false, some (formatTime f))

/-- The status dict `get_line_status` returns. -/
structure StatusResult where
  status : String
  messages : List String
  nextServiceTime : Option String
  deriving Repr, DecidableEq

/-- Embedding of `IETTStatusService.get_line_status` (lines 277-333): serve from the status
cache, else WARNING on any alert, else OUT_OF_SERVICE outside operating hours,
else ACTIVE; the result is written back to the cache. -/
def getLineStatus (statusCache : List (String × StatusResult))
    (fetchResult : Except String (List AlertRow))
    (scheduleResult : Except String SchedulePayload) (now : Moment)
    (lineCode : String) : StatusResult × List (String × StatusResult) :=
  match statusCache.find? (fun e => e.1 == lineCode) with
  | some e => (e.2, statusCache)
  | none =>
    let alertMessages := alertsOf fetchResult lineCode now
    if !alertMessages.isEmpty then
      let r : StatusResult := ⟨"WARNING", alertMessages, none⟩
      (r, (lineCode, r) :: statusCache)
    else
      let operationInfo := checkOperationHours scheduleResult now
      if !operationInfo.1 then
        let message :=
          match operationInfo.2 with
          | some t => "Hat şu an hizmet vermemektedir. İlk sefer: " ++ t
          | none => "Hat şu an hizmet vermemektedir."
        let r : StatusResult := ⟨"OUT_OF_SERVICE", [message], operationInfo.2⟩
        (r, (lineCode, r) :: statusCache)
      else
        let r : StatusResult := ⟨"ACTIVE", [], none⟩
        (r, (lineCode, r) :: statusCache)

/-- Python positional-argument binding for the bound method
`IETTStatusService.get_line_status` (line 277): its parameter list beyond
`self` is exactly `(line_code)`, so a call with any other number of positional
arguments raises `TypeError` before the body runs. The status router
(status.py line 108) calls it as
`status_service.get_line_status(line_code, direction)` — two positional
arguments, whatever the direction value. -/
def callGetLineStatus (statusCache : List (String × StatusResult))
    (fetchResult : Except String (List AlertRow))
    (scheduleResult : Except String SchedulePayload) (now : Moment)
    (args : List String) :
    Except String (StatusResult × List (String × StatusResult)) :=
  match args with
  | [lineCode] => .ok (getLineStatus statusCache fetchResult scheduleResult now lineCode)
  | _ => .error "TypeError: get_line_status takes 2 positional arguments but more were given"

/-! ## Pool aggregator (`schedule.py`, metrobus branch of `get_line_schedule`) -/

/-- Python `sorted(set(xs))` on `HH:MM` strings: distinct values in code-point
lexicographic order. -/
def sortedSet (xs : List String) : List String :=
  List.insertionSort strRel xs.dedup

/-- The metrobus branch of `get_line_schedule` (schedule.py lines 58-77):
extend each direction with every member's times, deduplicate and sort, then
derive `has_service_today` and `data_status`. -/
def getPooledSchedule (memberPayloads : List SchedulePayload) : SchedulePayload :=
  let g0 := memberPayloads.foldl (fun acc p => acc ++ p.g) []
  let d0 := memberPayloads.foldl (fun acc p => acc ++ p.d) []
  let g := sortedSet g0
  let d := sortedSet d0
  let hasService := !g.isEmpty || !d.isEmpty
  { g := g
    d := d
    meta := []
    hasServiceToday := hasService
    dataStatus := if hasService then "OK" else "NO_SERVICE_DAY" }

/-! ## Metrobus forecast branch (`forecast.py`, `get_daily_forecast`) -/

/-- Embedding of `_trips_per_hour_from_payload_direction` (forecast.py lines 61-68):
24 per-hour departure counts for one direction. -/
def tripsPerHourFromPayloadDirection (p : SchedulePayload) (direction : String) :
    List Nat :=
  (payloadGet p direction).foldl
    (fun counts timeStr =>
      match parse_time timeStr with
      | some t => counts.set t.1 (counts.getD t.1 0 + 1)
      | none => counts)
    (List.replicate 24 0)

/-- Modelled from the spec: `bus_schedule_cache_service.trips_per_hour_from_payload`
is in the `bus_schedule_cache` module, absent from src/. Spec section 4.4:
per-hour trip counts combine both directions' departures. -/
def tripsPerHourFromPayload (p : SchedulePayload) : List Nat :=
  List.zipWith (· + ·) (tripsPerHourFromPayloadDirection p "G")
    (tripsPerHourFromPayloadDirection p "D")

/-- One row of the forecast response in the metrobus branch. Predictions are
Python floats, modelled as rationals; `occupancy_pct` is
`min(100, round(...))`, an `int`. -/
structure ForecastRow where
  hour : Nat
  predictedValue : Option ℚ
  occupancyPct : Option ℤ
  crowdLevel : String
  maxCapacity : ℤ
  inService : Bool
  tripsPerHour : Option Nat
  vehicleCapacity : Option Nat
  deriving DecidableEq

/-- Embedding of `_crowd_level_for_capacity` (forecast.py lines 44-54). The float
thresholds 0.30/0.60/0.90 are taken at their decimal values. -/
def crowdLevelForCapacity (predictionValue : ℚ) (maxCapacity : ℤ) : String :=
  if maxCapacity ≤ 0 then "Unknown"
  else
    let occupancyRate := predictionValue / (maxCapacity : ℚ)
    if occupancyRate < 3 / 10 then "Low"
    else if occupancyRate < 6 / 10 then "Medium"
    else if occupancyRate < 9 / 10 then "High"
    else "Very High"

/-- The per-member accumulation of `trips_by_hour` and `schedule_available`
(forecast.py lines 308-326). Each list entry is one `METROBUS_POOL` member's
`get_cached_schedule` payload (`none` for a missing row). `round` models
Python `round` (ties are resolved differently, which no proved bound uses). -/
def metrobusTripsAccum (memberSchedules : List (Option SchedulePayload))
    (direction : Option String) : List Nat × Bool :=
  memberSchedules.foldl
    (fun acc mp =>
      match mp with
      | none => acc
      | some payload =>
        if payload.dataStatus == "FETCH_FAILED" then acc
        else
          let subTrips :=
            match direction with
            | some d =>
              if d == "G" || d == "D" then tripsPerHourFromPayloadDirection payload d
              else tripsPerHourFromPayload payload
            | none => tripsPerHourFromPayload payload
          (List.zipWith (· + ·) acc.1 subTrips, true))
    (List.replicate 24 0, false)

/-- The metrobus branch of `get_daily_forecast` (forecast.py lines 300-377),
from the summed per-hour predictions and the members' cached schedules to the
24 response rows. -/
def metrobusForecastRows (predByHour : Nat → ℚ)
    (memberSchedules : List (Option SchedulePayload)) (direction : Option String) :
    List ForecastRow :=
  let accum := metrobusTripsAccum memberSchedules direction
  let tripsByHour := accum.1
  let scheduleAvailable := accum.2
  (List.range 24).map (fun hour =>
    let totalPred := predByHour hour
    if scheduleAvailable then
      let trips := tripsByHour.getD hour 0
      if trips == 0 then
        { hour := hour
          predictedValue := none
          occupancyPct := none
          crowdLevel := "Out of Service"
          maxCapacity := max 1 ((trips : ℤ) * METROBUS_CAPACITY)
          inService := false
          tripsPerHour := some trips
          vehicleCapacity := some METROBUS_CAPACITY }
      else
        let maxCapacity : ℤ := max 1 ((trips : ℤ) * METROBUS_CAPACITY)
        let occupancyPct : ℤ := min 100 (round (totalPred / (maxCapacity : ℚ) * 100))
        { hour := hour
          predictedValue := some totalPred
          occupancyPct := some occupancyPct
          crowdLevel := crowdLevelForCapacity totalPred maxCapacity
          maxCapacity := maxCapacity
          inService := true
          tripsPerHour := some trips
          vehicleCapacity := some METROBUS_CAPACITY }
    else
      let effectiveTrips := METROBUS_MIN_TRIPS_FALLBACK
      let maxCapacity : ℤ := (effectiveTrips : ℤ) * METROBUS_CAPACITY
      let occupancyPct : ℤ := min 100 (round (totalPred / (maxCapacity : ℚ) * 100))
      { hour := hour
        predictedValue := some totalPred
        occupancyPct := some occupancyPct
        crowdLevel := crowdLevelForCapacity totalPred maxCapacity
        maxCapacity := maxCapacity
        inService := true
        tripsPerHour := some effectiveTrips
        vehicleCapacity := some METROBUS_CAPACITY })

/-! ## Concurrent cache misses (`get_schedule` under interleaving)

`get_schedule` has two blocking regions: the persistent-store lookup and the
upstream fetch (spec section 5). A logical task running `get_schedule` for one
key is therefore modelled in two atomic halves: the lookups (memory cache,
then store), and — only when both miss — the upstream call followed by the
cache writes. Tasks interleave at that suspension point. -/

inductive TaskPhase where
  | start
  | fetching
  | done
  deriving Repr, DecidableEq

/-- Shared state plus each task's phase and the upstream call counter. -/
structure FlightState where
  memCache : List (String × SchedulePayload)
  store : List StoredRecord
  phases : List TaskPhase
  upstreamCalls : Nat
  deriving Repr, DecidableEq

/-- Run task `i` up to its next suspension point: from `start`, perform the
memory-cache and store lookups of `get_schedule` (finishing on a hit,
suspending before the upstream call on a miss); from `fetching`, perform the
upstream call, the store upsert and the memory-cache write. -/
def stepTask (upstream : SchedulePayload) (lineCode : String) (targetDate : Nat)
    (s : FlightState) (i : Nat) : FlightState :=
  match s.phases.get? i with
  | some .start =>
    let cacheKey := scheduleCacheKey lineCode targetDate
    match s.memCache.find? (fun e => e.1 == cacheKey) with
    | some _ => { s with phases := s.phases.set i .done }
    | none =>
      match getCachedSchedule s.store lineCode targetDate 2 with
      | some _ => { s with phases := s.phases.set i .done }
      | none => { s with phases := s.phases.set i .fetching }
  | some .fetching =>
    { s with
      memCache := (scheduleCacheKey lineCode targetDate, upstream) :: s.memCache
      store := upsertRecord s.store
        ⟨lineCode, targetDate, dayTypeForDate targetDate, upstream, "SUCCESS", none⟩
      phases := s.phases.set i .done
      upstreamCalls := s.upstreamCalls + 1 }
  | _ => s

/-- Execute an interleaving: at each step the named task runs to its next
suspension point. -/
def runTasks (upstream : SchedulePayload) (lineCode : String) (targetDate : Nat)
    (order : List Nat) (s0 : FlightState) : FlightState :=
  order.foldl (stepTask upstream lineCode targetDate) s0

/-- Two concurrent `get_schedule` tasks for the same key, both starting on an
empty memory cache and store. -/
def twoMissState : FlightState := ⟨[], [], [.start, .start], 0⟩

/-! ## Helper lemmas -/

/-- Code-point lexicographic order is total. -/
theorem charsLe_total : ∀ (a b : List Char), charsLe a b = true ∨ charsLe b a = true := by
  intro a
  induction a with
  | nil => intro b; left; rfl
  | cons x xs ih =>
    intro b
    cases b with
    | nil => right; rfl
    | cons y ys =>
      simp only [charsLe]
      rcases Nat.lt_trichotomy x.toNat y.toNat with h | h | h
      · left; simp [h]
      · have h1 : ¬x.toNat < y.toNat := by omega
        have h2 : ¬y.toNat < x.toNat := by omega
        simpa [h1, h2] using ih ys
      · right; simp [h]

/-- Code-point lexicographic order is transitive. -/
theorem charsLe_trans : ∀ (a b c : List Char),
    charsLe a b = true → charsLe b c = true → charsLe a c = true := by
  intro a
  induction a with
  | nil => intro b c _ _; rfl
  | cons x xs ih =>
    intro b c hab hbc
    cases b with
    | nil => simp [charsLe] at hab
    | cons y ys =>
      cases c with
      | nil => simp [charsLe] at hbc
      | cons z zs =>
        simp only [charsLe] at hab hbc ⊢
        split_ifs at hab hbc ⊢ with h1 h2 h3 h4 h5 h6 <;>
          first
            | rfl
            | omega
            | (exact ih ys zs hab hbc)

/-- Membership in a fold that appends one list per element. -/
theorem mem_foldl_append {α β : Type} (f : β → List α) (a : α) :
    ∀ (l : List β) (init : List α),
      a ∈ l.foldl (fun acc p => acc ++ f p) init ↔ a ∈ init ∨ ∃ p ∈ l, a ∈ f p := by
  intro l
  induction l with
  | nil => simp
  | cons x xs ih =>
    intro init
    simp only [List.foldl_cons, ih, List.mem_append, List.mem_cons]
    constructor
    · rintro (⟨h | h⟩ | ⟨p, hp, ha⟩)
      · exact Or.inl h
      · exact Or.inr ⟨x, Or.inl rfl, h⟩
      · exact Or.inr ⟨p, Or.inr hp, ha⟩
    · rintro (h | ⟨p, hp | hp, ha⟩)
      · exact Or.inl (Or.inl h)
      · exact Or.inl (Or.inr (hp ▸ ha))
      · exact Or.inr ⟨p, hp, ha⟩

/-! ## Claims -/

/-- C1: for every line code, `get_schedule` never raises for upstream failure:
when the upstream fetch or parse fails (and neither cache layer has the key)
it returns the sentinel payload with `G = []`, `D = []`,
`data_status = "FETCH_FAILED"` and `has_service_today = true`, and stores that
sentinel in the memory cache under the request's key. -/
theorem getSchedule_upstream_failure_sentinel
    (memCache : List (String × SchedulePayload)) (store : List StoredRecord)
    (lineCode : String) (targetDate : Nat) (msg : String)
    (hmem : memCache.find? (fun e => e.1 == scheduleCacheKey lineCode targetDate) = none)
    (hdb : getCachedSchedule store lineCode targetDate 2 = none) :
    (getSchedule memCache store (.error msg) lineCode targetDate).payload.g = [] ∧
    (getSchedule memCache store (.error msg) lineCode targetDate).payload.d = [] ∧
    (getSchedule memCache store (.error msg) lineCode targetDate).payload.dataStatus =
      "FETCH_FAILED" ∧
    (getSchedule memCache store (.error msg) lineCode targetDate).payload.hasServiceToday =
      true ∧
    (getSchedule memCache store (.error msg) lineCode targetDate).memCacheAfter.find?
        (fun e => e.1 == scheduleCacheKey lineCode targetDate) =
      some (scheduleCacheKey lineCode targetDate,
        (getSchedule memCache store (.error msg) lineCode targetDate).payload) := by
  simp [getSchedule, hmem, hdb, failedPayload, List.find?]

/-- Witness for C1 at a concrete input: empty caches, upstream timeout. -/
theorem getSchedule_upstream_failure_sentinel_witness :
    (([] : List (String × SchedulePayload)).find?
        (fun e => e.1 == scheduleCacheKey "15F" 10) = none) ∧
    (getSchedule [] [] (.error "timeout") "15F" 10).payload.g = [] ∧
    (getSchedule [] [] (.error "timeout") "15F" 10).payload.d = [] ∧
    (getSchedule [] [] (.error "timeout") "15F" 10).payload.dataStatus = "FETCH_FAILED" ∧
    (getSchedule [] [] (.error "timeout") "15F" 10).payload.hasServiceToday = true ∧
    (getSchedule [] [] (.error "timeout") "15F" 10).memCacheAfter.find?
        (fun e => e.1 == scheduleCacheKey "15F" 10) =
      some (scheduleCacheKey "15F" 10,
        (getSchedule [] [] (.error "timeout") "15F" 10).payload) :=
  ⟨rfl, getSchedule_upstream_failure_sentinel [] [] "15F" 10 "timeout" rfl rfl⟩

/-- C2: `_is_hour_in_service` — an absent window means in service; a window
with `has_service = false` means out of service; a non-wrapping window means
`first_hour ≤ hour ≤ last_hour`; a wrapping window means
`hour ≥ first_hour ∨ hour ≤ last_hour`; and for the wraparound window
`first=6, last=0`, hours 23 and 0 are in service while hour 5 is not. -/
theorem isHourInService_spec (hour f l : Nat) (w : Bool) (oF oL : Option Nat) :
    isHourInService hour none = true ∧
    isHourInService hour (some ⟨oF, oL, w, false⟩) = false ∧
    isHourInService hour (some ⟨some f, some l, false, true⟩) =
      decide (f ≤ hour ∧ hour ≤ l) ∧
    isHourInService hour (some ⟨some f, some l, true, true⟩) =
      decide (hour ≥ f ∨ hour ≤ l) ∧
    isHourInService 23 (some ⟨some 6, some 0, true, true⟩) = true ∧
    isHourInService 0 (some ⟨some 6, some 0, true, true⟩) = true ∧
    isHourInService 5 (some ⟨some 6, some 0, true, true⟩) = false :=
  ⟨rfl, rfl, rfl, rfl, by decide, by decide, by decide⟩

/-- C3: with a status-cache miss, whenever the alert fetch succeeds and yields
at least one matching active alert, `get_line_status` returns `WARNING` with
exactly those alert texts as messages — for every schedule outcome, i.e.
regardless of operating hours (alerts are checked first). -/
theorem getLineStatus_warning_precedence
    (statusCache : List (String × StatusResult)) (rows : List AlertRow)
    (scheduleResult : Except String SchedulePayload) (now : Moment) (lineCode : String)
    (hmiss : statusCache.find? (fun e => e.1 == lineCode) = none)
    (halert : fetchAlerts lineCode rows now ≠ []) :
    ((getLineStatus statusCache (.ok rows) scheduleResult now lineCode).1).status =
      "WARNING" ∧
    ((getLineStatus statusCache (.ok rows) scheduleResult now lineCode).1).messages =
      fetchAlerts lineCode rows now ∧
    ((getLineStatus statusCache (.ok rows) scheduleResult now lineCode).1).nextServiceTime =
      none := by
  obtain ⟨m, ms, hrows⟩ := List.exists_cons_of_ne_nil halert
  simp [getLineStatus, hmiss, alertsOf, hrows]

/-- Witness for C3: one fresh alert for line `"19"` at noon, with a schedule
whose window contains the current hour. -/
theorem getLineStatus_warning_precedence_witness :
    (([] : List (String × StatusResult)).find? (fun e => e.1 == "19") = none) ∧
    fetchAlerts "19" [⟨some "19", some "Sefer iptal", some "Kayit Saati: 04:09"⟩]
      ⟨10, 12, 0⟩ ≠ [] ∧
    ((getLineStatus [] (.ok [⟨some "19", some "Sefer iptal", some "Kayit Saati: 04:09"⟩])
        (.ok ⟨["06:00", "23:00"], [], [], true, "OK", none, none⟩)
        ⟨10, 12, 0⟩ "19").1).status = "WARNING" ∧
    ((getLineStatus [] (.ok [⟨some "19", some "Sefer iptal", some "Kayit Saati: 04:09"⟩])
        (.ok ⟨["06:00", "23:00"], [], [], true, "OK", none, none⟩)
        ⟨10, 12, 0⟩ "19").1).messages =
      fetchAlerts "19" [⟨some "19", some "Sefer iptal", some "Kayit Saati: 04:09"⟩]
        ⟨10, 12, 0⟩ ∧
    ((getLineStatus [] (.ok [⟨some "19", some "Sefer iptal", some "Kayit Saati: 04:09"⟩])
        (.ok ⟨["06:00", "23:00"], [], [], true, "OK", none, none⟩)
        ⟨10, 12, 0⟩ "19").1).nextServiceTime = none :=
  ⟨rfl, by decide,
    getLineStatus_warning_precedence [] _ _ ⟨10, 12, 0⟩ "19" rfl (by decide)⟩

/-- The list `sortedSet xs` is sorted in Python string order. -/
theorem sortedSet_sorted (xs : List String) : List.Sorted strRel (sortedSet xs) := by
  haveI : IsTotal String strRel := ⟨fun a b => charsLe_total a.data b.data⟩
  haveI : IsTrans String strRel := ⟨fun _ _ _ hab hbc => charsLe_trans _ _ _ hab hbc⟩
  exact List.sorted_insertionSort strRel xs.dedup

/-- The list `sortedSet xs` is duplicate-free. -/
theorem sortedSet_nodup (xs : List String) : (sortedSet xs).Nodup :=
  (List.perm_insertionSort strRel xs.dedup).nodup_iff.mpr (List.nodup_dedup xs)

/-- Membership in `sortedSet xs` agrees with membership in `xs`. -/
theorem mem_sortedSet (t : String) (xs : List String) : t ∈ sortedSet xs ↔ t ∈ xs := by
  rw [sortedSet, (List.perm_insertionSort strRel xs.dedup).mem_iff, List.mem_dedup]

/-- C4: the pooled schedule's per-direction times are the union of the
members' times for that direction, deduplicated and sorted in lexicographic
ascending order; `has_service_today = true` iff some direction's pooled list
is non-empty, with `data_status = "OK"` then and `"NO_SERVICE_DAY"` otherwise;
and the two-member `G` example pools to `["06:00","06:10","06:20"]`. -/
theorem getPooledSchedule_spec (members : List SchedulePayload) :
    List.Sorted strRel (getPooledSchedule members).g ∧
    (getPooledSchedule members).g.Nodup ∧
    (∀ t, t ∈ (getPooledSchedule members).g ↔ ∃ p ∈ members, t ∈ p.g) ∧
    List.Sorted strRel (getPooledSchedule members).d ∧
    (getPooledSchedule members).d.Nodup ∧
    (∀ t, t ∈ (getPooledSchedule members).d ↔ ∃ p ∈ members, t ∈ p.d) ∧
    ((getPooledSchedule members).hasServiceToday = true ↔
      ((getPooledSchedule members).g ≠ [] ∨ (getPooledSchedule members).d ≠ [])) ∧
    (getPooledSchedule members).dataStatus =
      (if (getPooledSchedule members).hasServiceToday then "OK" else "NO_SERVICE_DAY") ∧
    (getPooledSchedule
        [⟨["06:00", "06:20"], [], [], true, "OK", none, none⟩,
         ⟨["06:10", "06:20"], [], [], true, "OK", none, none⟩]).g =
      ["06:00", "06:10", "06:20"] := by
  refine ⟨sortedSet_sorted _, sortedSet_nodup _, ?_, sortedSet_sorted _,
    sortedSet_nodup _, ?_, ?_, rfl, by decide⟩
  · intro t
    rw [show (getPooledSchedule members).g =
        sortedSet (members.foldl (fun acc p => acc ++ p.g) []) from rfl, mem_sortedSet]
    simpa using mem_foldl_append (fun p => p.g) t members []
  · intro t
    rw [show (getPooledSchedule members).d =
        sortedSet (members.foldl (fun acc p => acc ++ p.d) []) from rfl, mem_sortedSet]
    simpa using mem_foldl_append (fun p => p.d) t members []
  · simp [getPooledSchedule]

/-- C5: when a line (neither Marmaray nor rail-prefixed) has no parseable
times in the requested direction(s): a `FETCH_FAILED` schedule yields no
window, so every hour counts as in service; otherwise a specifically requested
direction with no times — while the opposite direction has times or the line
has service that day — yields `has_service = false` with null bounds. -/
theorem getServiceHours_no_parseable_times
    (metroLookup : String → Option MetroLine) (p : SchedulePayload)
    (lineCode : String) (direction : Option String)
    (hnm : lineCode ≠ "MARMARAY") (hnr : isRailCode lineCode = false) :
    (p.dataStatus = "FETCH_FAILED" → collectWindowTimes p direction = [] →
      getServiceHours metroLookup (.ok p) lineCode direction = none ∧
      ∀ h, isHourInService h (getServiceHours metroLookup (.ok p) lineCode direction) =
        true) ∧
    (∀ d, direction = some d → (d = "G" ∨ d = "D") →
      collectWindowTimes p direction = [] → p.dataStatus ≠ "FETCH_FAILED" →
      (payloadGet p (if d = "G" then "D" else "G") ≠ [] ∨ p.hasServiceToday = true) →
      getServiceHours metroLookup (.ok p) lineCode direction =
        some ⟨none, none, false, false⟩) := by
  have hkey : (lineCode == "MARMARAY") = false := by
    simpa using hnm
  constructor
  · intro hff hempty
    have hres : getServiceHours metroLookup (.ok p) lineCode direction = none := by
      simp [getServiceHours, hkey, hnr, scheduleWindow, hempty, hff]
    exact ⟨hres, fun h => by rw [hres]; rfl⟩
  · rintro d rfl hd hempty hnf hopp
    have hffb : (p.dataStatus == "FETCH_FAILED") = false := by
      simpa using hnf
    rcases hd with rfl | rfl
    · have hb : (!(payloadGet p "D").isEmpty || p.hasServiceToday) = true := by
        rcases hopp with h | h
        · cases hl : payloadGet p "D" with
          | nil => exact absurd hl (by simpa using h)
          | cons a as => simp [hl]
        · simp [h]
      simp [getServiceHours, hkey, hnr, scheduleWindow, hempty, hffb, hb]
    · have hb : (!(payloadGet p "G").isEmpty || p.hasServiceToday) = true := by
        rcases hopp with h | h
        · cases hl : payloadGet p "G" with
          | nil => exact absurd hl (by simpa using h)
          | cons a as => simp [hl]
        · simp [h]
      simp [getServiceHours, hkey, hnr, scheduleWindow, hempty, hffb, hb]

/-- Witness for C5: a `FETCH_FAILED` payload with no direction filter, and an
`"OK"` payload where direction `G` is empty while `D` runs. -/
theorem getServiceHours_no_parseable_times_witness :
    (getServiceHours (fun _ => none)
        (.ok ⟨[], [], [], true, "FETCH_FAILED", none, none⟩) "19" none = none ∧
      ∀ h, isHourInService h (getServiceHours (fun _ => none)
        (.ok ⟨[], [], [], true, "FETCH_FAILED", none, none⟩) "19" none) = true) ∧
    getServiceHours (fun _ => none)
        (.ok ⟨[], ["07:00"], [], true, "OK", none, none⟩) "19" (some "G") =
      some ⟨none, none, false, false⟩ :=
  ⟨(getServiceHours_no_parseable_times (fun _ => none) _ "19" none (by decide)
      (by decide)).1 rfl (by decide),
    (getServiceHours_no_parseable_times (fun _ => none) _ "19" (some "G") (by decide)
      (by decide)).2 "G" rfl (Or.inl rfl) (by decide) (by decide) (Or.inr rfl)⟩

/-- C6: with a memory-cache miss, when the persistent store's only candidate
record for the line is a stale `SUCCESS` record within the `max_stale_days`
tolerance (here 2, as `get_schedule` passes), `get_schedule` serves that
record flagged as stale — with no upstream call, whatever the upstream would
have returned — rather than the `FETCH_FAILED` sentinel. -/
theorem getSchedule_serves_stale_record
    (memCache : List (String × SchedulePayload)) (store : List StoredRecord)
    (upstream : Except String SchedulePayload) (lineCode : String) (targetDate : Nat)
    (rec : StoredRecord)
    (hmem : memCache.find? (fun e => e.1 == scheduleCacheKey lineCode targetDate) = none)
    (hcand : store.filter (staleCandidate lineCode targetDate 2) = [rec])
    (hstale : rec.validFor ≠ targetDate) :
    getCachedSchedule store lineCode targetDate 2 = some (rec.payload, true) ∧
    (getSchedule memCache store upstream lineCode targetDate).payload = rec.payload ∧
    (getSchedule memCache store upstream lineCode targetDate).upstreamCalls = 0 := by
  have hget : getCachedSchedule store lineCode targetDate 2 = some (rec.payload, true) := by
    simp [getCachedSchedule, hcand, hstale]
  exact ⟨hget, by simp [getSchedule, hmem, hget], by simp [getSchedule, hmem, hget]⟩

/-- Witness for C6: yesterday's `SUCCESS` record (valid_for 9, requested 10)
served while the upstream is down. -/
theorem getSchedule_serves_stale_record_witness :
    getCachedSchedule
        [⟨"15F", 9, "I", ⟨["06:00"], [], [], true, "OK", some "I", some 9⟩, "SUCCESS", none⟩]
        "15F" 10 2 =
      some (⟨["06:00"], [], [], true, "OK", some "I", some 9⟩, true) ∧
    (getSchedule []
        [⟨"15F", 9, "I", ⟨["06:00"], [], [], true, "OK", some "I", some 9⟩, "SUCCESS", none⟩]
        (.error "down") "15F" 10).payload =
      (⟨"15F", 9, "I", ⟨["06:00"], [], [], true, "OK", some "I", some 9⟩, "SUCCESS",
        none⟩ : StoredRecord).payload ∧
    (getSchedule []
        [⟨"15F", 9, "I", ⟨["06:00"], [], [], true, "OK", some "I", some 9⟩, "SUCCESS", none⟩]
        (.error "down") "15F" 10).upstreamCalls = 0 :=
  getSchedule_serves_stale_record []
    [⟨"15F", 9, "I", ⟨["06:00"], [], [], true, "OK", some "I", some 9⟩, "SUCCESS", none⟩]
    (.error "down") "15F" 10
    ⟨"15F", 9, "I", ⟨["06:00"], [], [], true, "OK", some "I", some 9⟩, "SUCCESS", none⟩
    rfl (by decide) (by decide)

/-- C7 counterexample: at 06:05 with departures 06:15 and 23:00 and no alerts,
the current hour 6 lies inside the computed hour window [6, 23], yet
`get_line_status` returns `OUT_OF_SERVICE`, and the reported next service time
is the first departure `"06:15"`, not the window's first hour as `"06:00"`. -/
theorem getLineStatus_hour_window_counterexample :
    isHourInService 6 (getServiceHours (fun _ => none)
        (.ok ⟨["06:15", "23:00"], [], [], true, "OK", none, none⟩) "19" none) = true ∧
    ((getLineStatus [] (.ok [])
        (.ok ⟨["06:15", "23:00"], [], [], true, "OK", none, none⟩)
        ⟨0, 6, 5⟩ "19").1).status = "OUT_OF_SERVICE" ∧
    ¬ (((getLineStatus [] (.ok [])
        (.ok ⟨["06:15", "23:00"], [], [], true, "OK", none, none⟩)
        ⟨0, 6, 5⟩ "19").1).status = "ACTIVE") ∧
    ((getLineStatus [] (.ok [])
        (.ok ⟨["06:15", "23:00"], [], [], true, "OK", none, none⟩)
        ⟨0, 6, 5⟩ "19").1).nextServiceTime = some "06:15" ∧
    ¬ (((getLineStatus [] (.ok [])
        (.ok ⟨["06:15", "23:00"], [], [], true, "OK", none, none⟩)
        ⟨0, 6, 5⟩ "19").1).nextServiceTime = some "06:00") := by
  decide

/-- C7 (amended): with no alerts and a status-cache miss, the status is
`OUT_OF_SERVICE` exactly when the schedule yields parseable departure times
and the current time — compared at minute precision — falls before the first
or after the last departure; `next_service_time` is then the first departure
formatted `HH:MM` (also when past closing, as the next day's first departure).
Otherwise (current time within the departure span, no parseable times, or a
schedule retrieval error) the status is `ACTIVE`. -/
theorem getLineStatus_operation_hours
    (statusCache : List (String × StatusResult))
    (fetchResult : Except String (List AlertRow)) (schedule : SchedulePayload)
    (now : Moment) (lineCode : String)
    (hmiss : statusCache.find? (fun e => e.1 == lineCode) = none)
    (halert : alertsOf fetchResult lineCode now = []) :
    (∀ msg, ((getLineStatus statusCache fetchResult (.error msg) now
      lineCode).1).status = "ACTIVE") ∧
    (List.insertionSort timeRel (operationTimes schedule) = [] →
      ((getLineStatus statusCache fetchResult (.ok schedule) now
        lineCode).1).status = "ACTIVE") ∧
    (∀ f rest, List.insertionSort timeRel (operationTimes schedule) = f :: rest →
      ((timeLeB f (now.hour, now.minute) &&
          timeLeB (now.hour, now.minute)
            ((f :: rest).getLast (List.cons_ne_nil f rest))) = true →
        ((getLineStatus statusCache fetchResult (.ok schedule) now
          lineCode).1).status = "ACTIVE") ∧
      ((timeLeB f (now.hour, now.minute) &&
          timeLeB (now.hour, now.minute)
            ((f :: rest).getLast (List.cons_ne_nil f rest))) = false →
        ((getLineStatus statusCache fetchResult (.ok schedule) now
          lineCode).1).status = "OUT_OF_SERVICE" ∧
        ((getLineStatus statusCache fetchResult (.ok schedule) now
          lineCode).1).nextServiceTime = some (formatTime f))) := by
  refine ⟨?_, ?_, ?_⟩
  · intro msg
    simp [getLineStatus, hmiss, halert, checkOperationHours]
  · intro hsort
    simp [getLineStatus, hmiss, halert, checkOperationHours, hsort]
  · intro f rest hsort
    constructor
    · intro hin
      simp [getLineStatus, hmiss, halert, checkOperationHours, hsort, hin]
    · intro hout
      simp [getLineStatus, hmiss, halert, checkOperationHours, hsort, hout]

/-- Witness for C7 (amended): no alerts, departures 06:15 and 23:00, current
time 02:00 — out of service with next service 06:15. -/
theorem getLineStatus_operation_hours_witness :
    ((getLineStatus [] (.ok [])
        (.ok ⟨["06:15", "23:00"], [], [], true, "OK", none, none⟩)
        ⟨0, 2, 0⟩ "19").1).status = "OUT_OF_SERVICE" ∧
    ((getLineStatus [] (.ok [])
        (.ok ⟨["06:15", "23:00"], [], [], true, "OK", none, none⟩)
        ⟨0, 2, 0⟩ "19").1).nextServiceTime = some "06:15" :=
  ((getLineStatus_operation_hours [] (.ok [])
      ⟨["06:15", "23:00"], [], [], true, "OK", none, none⟩ ⟨0, 2, 0⟩ "19" rfl
      rfl).2.2 (6, 15) [(23, 0)] (by decide)).2 (by decide)

/-- C8: the status router passes both the line code and the direction as
positional arguments, but `IETTStatusService.get_line_status` accepts only the
line code, so the call raises `TypeError` instead of succeeding; a one-argument
call dispatches to the method body. -/
theorem callGetLineStatus_two_args_type_error :
    callGetLineStatus [] (.ok []) (.ok ⟨[], [], [], true, "OK", none, none⟩)
        ⟨0, 12, 0⟩ ["19", "G"] =
      .error "TypeError: get_line_status takes 2 positional arguments but more were given" ∧
    callGetLineStatus [] (.ok []) (.ok ⟨[], [], [], true, "OK", none, none⟩)
        ⟨0, 12, 0⟩ ["19"] =
      .ok (getLineStatus [] (.ok []) (.ok ⟨[], [], [], true, "OK", none, none⟩)
        ⟨0, 12, 0⟩ "19") :=
  ⟨rfl, rfl⟩

/-- C9 counterexample: two concurrent cache-miss `get_schedule` tasks for the
same key, each interleaved at its blocking upstream call, issue two upstream
calls — not exactly one. -/
theorem concurrent_misses_two_upstream_calls :
    (runTasks ⟨["06:00"], [], [], true, "OK", none, none⟩ "34" 10 [0, 1, 0, 1]
        twoMissState).upstreamCalls = 2 ∧
    ¬ ((runTasks ⟨["06:00"], [], [], true, "OK", none, none⟩ "34" 10 [0, 1, 0, 1]
        twoMissState).upstreamCalls = 1) := by
  decide

/-- C9 (amended): `get_schedule` has no single-flight protection — every task
that misses both cache tiers issues its own upstream call. Two tasks whose
lookups both happen before either completes issue two upstream calls, while
under the serial order the second task hits the memory cache and exactly one
upstream call is made. -/
theorem concurrent_misses_no_coalescing :
    (runTasks ⟨["06:00"], [], [], true, "OK", none, none⟩ "34" 10 [0, 1, 0, 1]
        twoMissState).upstreamCalls = 2 ∧
    (runTasks ⟨["06:00"], [], [], true, "OK", none, none⟩ "34" 10 [0, 0, 1, 1]
        twoMissState).upstreamCalls = 1 := by
  decide

/-- C10: every row of the pooled metrobus forecast has `max_capacity ≥ 1`
(the `max(1, trips * capacity)` guard, or the 6-trip fallback times the
per-vehicle capacity 193), so the occupancy division is never by zero; and a
non-null `occupancy_pct` is clamped to at most 100. -/
theorem metrobusForecastRows_capacity_bounds
    (predByHour : Nat → ℚ) (memberSchedules : List (Option SchedulePayload))
    (direction : Option String) (row : ForecastRow)
    (hrow : row ∈ metrobusForecastRows predByHour memberSchedules direction) :
    1 ≤ row.maxCapacity ∧ ∀ o, row.occupancyPct = some o → o ≤ 100 := by
  simp only [metrobusForecastRows, List.mem_map, List.mem_range] at hrow
  obtain ⟨hour, -, rfl⟩ := hrow
  split_ifs with h1 h2
  · exact ⟨le_max_left 1 _, fun o ho => by simp at ho⟩
  · refine ⟨le_max_left 1 _, fun o ho => ?_⟩
    simp only [Option.some.injEq] at ho
    exact ho ▸ min_le_left 100 _
  · refine ⟨by norm_num [METROBUS_MIN_TRIPS_FALLBACK, METROBUS_CAPACITY], fun o ho => ?_⟩
    simp only [Option.some.injEq] at ho
    exact ho ▸ min_le_left 100 _

/-- Witness for C10: the hour-0 row of a pooled forecast with no member
schedules (fallback capacity path). -/
theorem metrobusForecastRows_capacity_bounds_witness :
    1 ≤ ((metrobusForecastRows (fun _ => 350) [] none).get
        ⟨0, by simp [metrobusForecastRows]⟩).maxCapacity ∧
    ∀ o, ((metrobusForecastRows (fun _ => 350) [] none).get
        ⟨0, by simp [metrobusForecastRows]⟩).occupancyPct = some o → o ≤ 100 :=
  metrobusForecastRows_capacity_bounds _ _ _ _ (List.get_mem _ _ _)

end DoluMu
